import Mathlib

/-
Shallow embedding of the go-pty library's Windows backend (src/pty_win.go)
together with the shared interface types (the build-tagged common file under
src/unnamed). Go functions become Lean functions; every OS call (WaitForSingleObject,
GetExitCodeProcess, TerminateProcess, ResizePseudoConsole, CloseHandle, ReadFile,
CreateProcess, the UTF-16 encoders, ...) is modelled by an explicit oracle argument
giving that call's outcome, so the control flow of the Go code is reproduced for
every possible sequence of OS results. Methods that mutate their receiver return
the updated receiver explicitly.
-/

/-- Error values of the library: the three sentinel errors declared in the shared
interface file (`ErrNotFinished`, `ErrAlreadyTaken`, `ErrAlreadyClosed`), Go's
`io.EOF`, and a platform error wrapping a native OS error code. -/
inductive GoError where
  | notFinished
  | alreadyTaken
  | alreadyClosed
  | eof
  | osError (code : Nat)
deriving DecidableEq, Repr

/-- The terminal geometry value type `PtySize` (rows, cols, pixel width, pixel
height; uint16 fields in Go, no arithmetic is ever performed on them). -/
structure PtySize where
  Rows : Nat
  Cols : Nat
  PixelWidth : Nat
  PixelHeight : Nat
deriving DecidableEq, Repr

/-- Source `DefaultPtySize`: 24 rows by 80 columns, pixel fields zero. -/
def DefaultPtySize : PtySize :=
  { Rows := 24, Cols := 80, PixelWidth := 0, PixelHeight := 0 }

/-- Go `windows.InvalidHandle` is `^uintptr(0)`, i.e. the all-ones 64-bit word. -/
def invalidHandle : Nat := 2 ^ 64 - 1

/-- The Windows still-active sentinel `STILL_ACTIVE` (259), compared against the
status reported by `GetExitCodeProcess` in `windowsChild.Exited`. -/
def stillActive : Nat := 259

/-- Source `windowsChild`: holds the one process handle `Proc`. -/
structure windowsChild where
  Proc : Nat
deriving DecidableEq, Repr

/-- Outcome oracle for a `GetExitCodeProcess` call: given the handle it is called
on, either the OS error code (`.error`) or the reported status (`.ok`). -/
def ExitCodeOracle : Type := Nat → Except Nat Nat

/-- Source `windowsChild.Exited`: calls `GetExitCodeProcess(c.Proc, &status)`;
on an OS error returns `(0, err)`; if the status is the still-active sentinel 259
returns `(0, ErrNotFinished)`; otherwise returns `(status, nil)`. Note the Go
method never checks `c.Proc` against `InvalidHandle` and never assigns to it;
the embedding returns the receiver together with Go's two return values. -/
def windowsChild.Exited (getExitCode : ExitCodeOracle) (c : windowsChild) :
    windowsChild × Nat × Option GoError :=
  match getExitCode c.Proc with
  | .error e => (c, 0, some (.osError e))
  | .ok status =>
      if status = stillActive then (c, 0, some .notFinished)
      else (c, status, none)

/-- Source `windowsChild.Wait`: fails with `ErrAlreadyClosed` when `c.Proc` is
`InvalidHandle`; otherwise calls `WaitForSingleObject` (oracle `waitRes`, `none`
meaning success) and returns its error on failure without touching `c.Proc`;
on success it calls `Exited` and then sets `c.Proc = InvalidHandle`
unconditionally, returning whatever `Exited` returned. -/
def windowsChild.Wait (waitRes : Option Nat) (getExitCode : ExitCodeOracle)
    (c : windowsChild) : windowsChild × Nat × Option GoError :=
  if c.Proc = invalidHandle then (c, 0, some .alreadyClosed)
  else
    match waitRes with
    | some e => (c, 0, some (.osError e))
    | none =>
        let r := windowsChild.Exited getExitCode c
        (⟨invalidHandle⟩, r.2)

/-- Source `windowsChild.Kill`: fails with `ErrAlreadyClosed` when `c.Proc` is
`InvalidHandle`; otherwise calls `TerminateProcess(c.Proc, 1)` (oracle
`termRes`, `none` meaning success) and returns its error or `nil`. The Go
method never assigns to `c.Proc`: a successful kill does not invalidate. -/
def windowsChild.Kill (termRes : Option Nat) (c : windowsChild) :
    windowsChild × Option GoError :=
  if c.Proc = invalidHandle then (c, some .alreadyClosed)
  else
    match termRes with
    | some e => (c, some (.osError e))
    | none => (c, none)

/-- Outcome of a `windows.ReadFile` call as distinguished by `windowsReader.Read`:
success with the bytes read, `ERROR_BROKEN_PIPE`, `ERROR_NO_DATA`,
`ERROR_MORE_DATA` with the bytes read so far, or some other OS error code. -/
inductive ReadFileResult where
  | ok (bytes : List Nat)
  | brokenPipe
  | noData
  | moreData (bytes : List Nat)
  | osErr (code : Nat)
deriving DecidableEq, Repr

/-- Source `windowsReader` wraps the read end of a pipe. -/
structure windowsReader where
  read : Nat
deriving DecidableEq, Repr

/-- Source `windowsWriter` wraps the write end of a pipe. -/
structure windowsWriter where
  write : Nat
deriving DecidableEq, Repr

/-- Source `windowsReader.Read`: switches on the `ReadFile` error.
`ERROR_BROKEN_PIPE` and `ERROR_NO_DATA` become `(0, io.EOF)`; `ERROR_MORE_DATA`
and `nil` return the bytes read with no error; any other error returns
`(0, err)`. The bytes stand for `p[:n]`. -/
def windowsReader.Read : ReadFileResult → List Nat × Option GoError
  | .ok bs => (bs, none)
  | .brokenPipe => ([], some .eof)
  | .noData => ([], some .eof)
  | .moreData bs => (bs, none)
  | .osErr e => ([], some (.osError e))

/-- The 4-byte cursor-position request "\x1b[6n" (ESC [ 6 n) matched by the
drain loop in `windowsPty.Close`. -/
def cprQuery : List Nat := [0x1b, 0x5b, 0x36, 0x6e]

/-- The 8-byte cursor-position report "\x1b[24;80R" (row 24, column 80) written
back by the drain loop in `windowsPty.Close`. -/
def cprReply : List Nat := [0x1b, 0x5b, 0x32, 0x34, 0x3b, 0x38, 0x30, 0x52]

/-- How one run of the drain goroutine in `windowsPty.Close` ended: `break` out
of the loop on `io.EOF`, or `return` on any other read error. -/
inductive DrainStop where
  | eofBreak
  | errReturn (code : Nat)
deriving DecidableEq, Repr

/-- Source: the body of the goroutine started by `windowsPty.Close`, run over a
trace of `ReadFile` outcomes. Each iteration reads; on `io.EOF` it breaks, on
any other error it logs and returns, otherwise if the bytes read are exactly the
4-byte sequence "\x1b[6n" it writes back "\x1b[24;80R" and in every non-error
case continues looping. The result collects the payloads written and how the
loop stopped (`none` when the given trace ran out with the loop still going). -/
def drainTask : List ReadFileResult → List (List Nat) × Option DrainStop
  | [] => ([], none)
  | r :: rest =>
      match windowsReader.Read r with
      | (_, some GoError.eof) => ([], some .eofBreak)
      | (_, some (GoError.osError e)) => ([], some (.errReturn e))
      | (_, some _) => ([], none)
      | (bs, none) =>
          let tail := drainTask rest
          if bs.length = 4 ∧ bs = cprQuery then (cprReply :: tail.1, tail.2)
          else tail

/-- Source `windowsPty`: the pseudoconsole handle, the stored size, the one-shot
reader and writer slots (Go nils a pointer field to mark the stream taken; the
embedding uses `Option`), the raw read/write handles kept for `Close`, and the
`closed` flag. -/
structure windowsPty where
  PCon : Nat
  ptySize : PtySize
  Readable : Option windowsReader
  readHandle : Nat
  Writable : Option windowsWriter
  writeHandle : Nat
  closed : Bool
deriving DecidableEq, Repr

/-- Source `windowsPty.Resize`: calls `ResizePseudoConsole` (oracle `resizeRes`,
`none` meaning success); on an OS error returns it with the receiver unchanged;
on success stores the requested size in the `PtySize` field (here `ptySize`, renamed because the Go field shares the name of its type) and returns `nil`. -/
def windowsPty.Resize (resizeRes : Option Nat) (size : PtySize) (p : windowsPty) :
    windowsPty × Option GoError :=
  match resizeRes with
  | some e => (p, some (.osError e))
  | none => ({ p with ptySize := size }, none)

/-- Source `windowsPty.GetSize`: returns the stored size and `nil`; no OS call at all. -/
def windowsPty.GetSize (p : windowsPty) : PtySize × Option GoError :=
  (p.ptySize, none)

/-- Source `windowsPty.TakeReader`: if `p.Readable` is nil fails with
`ErrAlreadyTaken`; otherwise nils the field and returns the reader. -/
def windowsPty.TakeReader (p : windowsPty) :
    windowsPty × Except GoError windowsReader :=
  match p.Readable with
  | none => (p, .error .alreadyTaken)
  | some r => ({ p with Readable := none }, .ok r)

/-- Source `windowsPty.TakeWriter`: if `p.Writable` is nil fails with
`ErrAlreadyTaken`; otherwise nils the field and returns the writer. -/
def windowsPty.TakeWriter (p : windowsPty) :
    windowsPty × Except GoError windowsWriter :=
  match p.Writable with
  | none => (p, .error .alreadyTaken)
  | some w => ({ p with Writable := none }, .ok w)

/-- One observable resource action performed by `windowsPty.Close`: starting the
drain goroutine, calling `ClosePseudoConsole`, or attempting `CloseHandle` on a
handle. -/
inductive CloseEffect where
  | startDrain
  | closePseudoConsole (h : Nat)
  | closeHandle (h : Nat)
deriving DecidableEq, Repr

/-- Source `windowsPty.Close`: if `p.closed` it returns `ErrAlreadyClosed` at
once, performing nothing. Otherwise it starts the drain goroutine over
`p.readHandle`, calls `ClosePseudoConsole(p.PCon)`, then `CloseHandle` on the
read handle and the write handle in that order (oracles `closeReadRes`,
`closeWriteRes`; `none` meaning success), returning the first failure without
setting `closed`; when both succeed it sets `p.closed = true` and returns `nil`.
The third component lists the resource actions attempted, in order. -/
def windowsPty.Close (closeReadRes closeWriteRes : Option Nat) (p : windowsPty) :
    windowsPty × Option GoError × List CloseEffect :=
  if p.closed then (p, some .alreadyClosed, [])
  else
    match closeReadRes with
    | some e =>
        (p, some (.osError e),
          [.startDrain, .closePseudoConsole p.PCon, .closeHandle p.readHandle])
    | none =>
        match closeWriteRes with
        | some e =>
            (p, some (.osError e),
              [.startDrain, .closePseudoConsole p.PCon, .closeHandle p.readHandle,
                .closeHandle p.writeHandle])
        | none =>
            ({ p with closed := true }, none,
              [.startDrain, .closePseudoConsole p.PCon, .closeHandle p.readHandle,
                .closeHandle p.writeHandle])

/-- The fields of Go's `exec.Cmd` that `windowsPty.SpawnCommand` reads: the
executable path, the argument vector (whose element 0 is conventionally the
program name), the environment list, and the working directory ("" for none). -/
structure Cmd where
  Path : String
  Args : List String
  Env : List String
  Dir : String
deriving DecidableEq, Repr

/-- Source, from `windowsPty.SpawnCommand`: the command line handed to
`CreateProcess` is built as `cmd_str := cmd.Path` followed by
`cmd_str += " " + arg` for each `arg` in `cmd.Args[1:]` — a naive space join
with no quoting of any kind. -/
def buildCmdStr (cmd : Cmd) : String :=
  (cmd.Args.drop 1).foldl (fun acc arg => acc ++ " " ++ arg) cmd.Path

/-- Helper for `specParseCmdLine`: walks the characters with an accumulator of
the current argument (reversed) and an in-quotes flag. -/
def specParseArgsAux : List Char → List Char → Bool → List String
  | [], acc, _ => if acc.isEmpty then [] else [String.mk acc.reverse]
  | c :: rest, acc, inQuote =>
      if c == '"' then specParseArgsAux rest acc (!inQuote)
      else if c == ' ' && !inQuote then
        if acc.isEmpty then specParseArgsAux rest [] false
        else String.mk acc.reverse :: specParseArgsAux rest [] false
      else specParseArgsAux rest (c :: acc) inQuote

/-- Specification-side definition, following the spec sentence that the
reconstructed command line must "parse back to the original argument vector":
the standard shell-style reading of a command line, splitting on spaces except
inside double quotes. Used only to compare the source's `buildCmdStr` against
the spec's requirement. -/
def specParseCmdLine (s : String) : List String :=
  specParseArgsAux s.data [] false

/-- Oracle for one run of `windowsPty.SpawnCommand`: the outcome of each
fallible step, in source order (`none` meaning success for the `Option Nat`
fields), plus the process and thread handles `CreateProcess` would report. The
environment encoder is summarised by the first failing element's error, if any. -/
structure SpawnOracle where
  newAttrListRes : Option Nat
  attrUpdateRes : Option Nat
  exeEncodeRes : Option Nat
  cmdLineEncodeRes : Option Nat
  envEncodeRes : Option Nat
  cwdEncodeRes : Option Nat
  createProcessRes : Option Nat
  closeThreadRes : Option Nat
  procHandle : Nat
deriving DecidableEq, Repr

/-- What one run of `windowsPty.SpawnCommand` did: the returned value (`Child`
or error), whether `CreateProcess` ever succeeded (a process exists), whether
the attribute list was allocated and whether its deferred `Delete` ran, and the
receiver `Pty` as the method left it. -/
structure SpawnOutcome where
  result : Except GoError windowsChild
  processCreated : Bool
  attrListAllocated : Bool
  attrListReleased : Bool
  pty : windowsPty
deriving Repr

/-- Source `windowsPty.SpawnCommand`, step by step: build the StartupInfoEx
(pure), `NewProcThreadAttributeList` (fallible; a `defer attrs.Delete()` then
covers every later return), `attrs.Update` with the pseudoconsole (fallible),
UTF-16 encode `cmd.Path` (fallible), build the command line with `buildCmdStr`
and UTF-16 encode it (fallible), UTF-16 encode each environment entry
(fallible), UTF-16 encode `cmd.Dir` when it is nonempty (fallible),
`CreateProcess` (fallible), `CloseHandle(pi.Thread)` (fallible — note that on
this failure the method returns an error although the process was created), and
finally return `&windowsChild{pi.Process}`. Every path returns the receiver
unmodified. -/
def windowsPty.SpawnCommand (o : SpawnOracle) (cmd : Cmd) (p : windowsPty) :
    SpawnOutcome :=
  match o.newAttrListRes with
  | some e => ⟨.error (.osError e), false, false, false, p⟩
  | none =>
      match o.attrUpdateRes with
      | some e => ⟨.error (.osError e), false, true, true, p⟩
      | none =>
          match o.exeEncodeRes with
          | some e => ⟨.error (.osError e), false, true, true, p⟩
          | none =>
              match o.cmdLineEncodeRes with
              | some e => ⟨.error (.osError e), false, true, true, p⟩
              | none =>
                  match o.envEncodeRes with
                  | some e => ⟨.error (.osError e), false, true, true, p⟩
                  | none =>
                      match (if cmd.Dir ≠ "" then o.cwdEncodeRes else none) with
                      | some e => ⟨.error (.osError e), false, true, true, p⟩
                      | none =>
                          match o.createProcessRes with
                          | some e => ⟨.error (.osError e), false, true, true, p⟩
                          | none =>
                              match o.closeThreadRes with
                              | some e => ⟨.error (.osError e), true, true, true, p⟩
                              | none =>
                                  ⟨.ok ⟨o.procHandle⟩, true, true, true, p⟩

/-- The failure stages of `SpawnCommand` that claim C9 enumerates:
argument/environment encoding, attribute-list setup, or the create-process
call itself — everything up to and including `CreateProcess`. -/
def spawnFailsAtEnumeratedStage (o : SpawnOracle) (cmd : Cmd) : Prop :=
  o.newAttrListRes.isSome = true ∨ o.attrUpdateRes.isSome = true ∨
  o.exeEncodeRes.isSome = true ∨ o.cmdLineEncodeRes.isSome = true ∨
  o.envEncodeRes.isSome = true ∨
  (cmd.Dir ≠ "" ∧ o.cwdEncodeRes.isSome = true) ∨
  o.createProcessRes.isSome = true

instance (o : SpawnOracle) (cmd : Cmd) :
    Decidable (spawnFailsAtEnumeratedStage o cmd) := by
  unfold spawnFailsAtEnumeratedStage; infer_instance

/-- Source `Pipe`: the read and write handles of one anonymous pipe. -/
structure Pipe where
  Read : Nat
  Write : Nat
deriving DecidableEq, Repr

/-- Source `NewPty`: creates the stdin pipe, the stdout pipe, and the
pseudoconsole (each fallible, given by oracle); on success the returned
`windowsPty` holds the pseudoconsole handle, the requested size, a reader over
`stdout.Read`, a writer over `stdin.Write`, and `closed = false`. -/
def NewPty (stdinRes stdoutRes : Except Nat Pipe) (pconRes : Except Nat Nat)
    (size : PtySize) : Except GoError windowsPty :=
  match stdinRes with
  | .error e => .error (.osError e)
  | .ok stdin =>
      match stdoutRes with
      | .error e => .error (.osError e)
      | .ok stdout =>
          match pconRes with
          | .error e => .error (.osError e)
          | .ok pcon =>
              .ok ⟨pcon, size, some ⟨stdout.Read⟩, stdout.Read,
                some ⟨stdin.Write⟩, stdin.Write, false⟩

/-- C1, counterexample: `Kill` on a running child (handle 42) succeeds but does
not invalidate, so a second `Kill` also succeeds with a nil error instead of
failing with `AlreadyClosed` as the claim states. -/
theorem kill_then_kill_not_alreadyClosed :
    windowsChild.Kill none ⟨42⟩ = (⟨42⟩, none) ∧
    windowsChild.Kill none (windowsChild.Kill none ⟨42⟩).1 = (⟨42⟩, none) ∧
    (windowsChild.Kill none (windowsChild.Kill none ⟨42⟩).1).2 ≠
      some GoError.alreadyClosed := by
  refine ⟨by decide, by decide, by decide⟩

/-- C1 (amended): after a successful `Wait` the child is invalidated, so any
subsequent `Wait` or `Kill` fails immediately with `AlreadyClosed`; but a
successful `Kill` leaves the child's handle unchanged (the Go method never
assigns `InvalidHandle`), so a second `Kill` does not fail with
`AlreadyClosed` and instead re-attempts termination. -/
theorem wait_invalidates_but_kill_does_not (c : windowsChild)
    (g : ExitCodeOracle) (s : Nat) (hc : c.Proc ≠ invalidHandle)
    (hg : g c.Proc = Except.ok s) (hs : s ≠ stillActive) :
    windowsChild.Wait none g c = (⟨invalidHandle⟩, s, none) ∧
    (∀ w g2, windowsChild.Wait w g2 (windowsChild.Wait none g c).1 =
      (⟨invalidHandle⟩, 0, some GoError.alreadyClosed)) ∧
    (∀ t, windowsChild.Kill t (windowsChild.Wait none g c).1 =
      (⟨invalidHandle⟩, some GoError.alreadyClosed)) ∧
    windowsChild.Kill none c = (c, none) := by
  have h1 : windowsChild.Wait none g c = (⟨invalidHandle⟩, s, none) := by
    simp [windowsChild.Wait, windowsChild.Exited, hc, hg, hs]
  refine ⟨h1, ?_, ?_, ?_⟩
  · intro w g2
    rw [h1]
    simp [windowsChild.Wait]
  · intro t
    rw [h1]
    simp [windowsChild.Kill]
  · simp [windowsChild.Kill, hc]

/-- C1 witness: concrete run of the amended theorem at handle 42 with the OS
reporting exit status 7. -/
theorem wait_invalidates_but_kill_does_not_witness :
    windowsChild.Wait none (fun _ => Except.ok 7) ⟨42⟩ = (⟨invalidHandle⟩, 7, none) :=
  (wait_invalidates_but_kill_does_not ⟨42⟩ (fun _ => Except.ok 7) 7
    (by decide) rfl (by decide)).1

/-- C2, counterexample: `Exited` on an invalidated child does not return
`AlreadyClosed`. The Go method has no `InvalidHandle` check: it hands the stale
handle to `GetExitCodeProcess` (which rejects it, here with error code 6,
`ERROR_INVALID_HANDLE`) and returns that OS error instead. -/
theorem exited_on_invalidated_not_alreadyClosed :
    (windowsChild.Exited (fun _ => Except.error 6) ⟨invalidHandle⟩).2 =
      (0, some (GoError.osError 6)) ∧
    (windowsChild.Exited (fun _ => Except.error 6) ⟨invalidHandle⟩).2.2 ≠
      some GoError.alreadyClosed := by
  refine ⟨rfl, by decide⟩

/-- C2 (amended): on an invalidated child, `Wait` and `Kill` report
`AlreadyClosed`, but `Exited` operates on the stale handle: it returns whatever
the OS status query says — when the query rejects the stale handle this is a
platform error, which is distinct from both `AlreadyClosed` and
`NotFinished`. -/
theorem invalidated_lifecycle_ops (g : ExitCodeOracle) (e : Nat)
    (w t : Option Nat) (h : g invalidHandle = Except.error e) :
    windowsChild.Wait w g ⟨invalidHandle⟩ =
      (⟨invalidHandle⟩, 0, some GoError.alreadyClosed) ∧
    windowsChild.Kill t ⟨invalidHandle⟩ =
      (⟨invalidHandle⟩, some GoError.alreadyClosed) ∧
    windowsChild.Exited g ⟨invalidHandle⟩ =
      (⟨invalidHandle⟩, 0, some (GoError.osError e)) ∧
    GoError.osError e ≠ GoError.alreadyClosed ∧
    GoError.osError e ≠ GoError.notFinished := by
  refine ⟨?_, ?_, ?_, by simp, by simp⟩
  · simp [windowsChild.Wait]
  · simp [windowsChild.Kill]
  · simp [windowsChild.Exited, h]

/-- C2 witness: concrete run of the amended theorem with the OS query failing
with error code 6 on the stale handle. -/
theorem invalidated_lifecycle_ops_witness :
    windowsChild.Wait none (fun _ => Except.error 6) ⟨invalidHandle⟩ =
      (⟨invalidHandle⟩, 0, some GoError.alreadyClosed) :=
  (invalidated_lifecycle_ops (fun _ => Except.error 6) 6 none none rfl).1

/-- C3: on a pty whose reader and writer slots are both still present (the shape
`NewPty` produces), `TakeReader` succeeds and empties only the reader slot, a
second `TakeReader` fails with `AlreadyTaken`, and symmetrically for
`TakeWriter`; each can still be taken after the other was, so the two slots are
independent. -/
theorem takeReader_takeWriter_once_each (pcon rh wh : Nat) (sz : PtySize)
    (rd : windowsReader) (wr : windowsWriter) (cl : Bool) :
    windowsPty.TakeReader ⟨pcon, sz, some rd, rh, some wr, wh, cl⟩ =
      (⟨pcon, sz, none, rh, some wr, wh, cl⟩, Except.ok rd) ∧
    windowsPty.TakeReader ⟨pcon, sz, none, rh, some wr, wh, cl⟩ =
      (⟨pcon, sz, none, rh, some wr, wh, cl⟩, Except.error GoError.alreadyTaken) ∧
    windowsPty.TakeWriter ⟨pcon, sz, some rd, rh, some wr, wh, cl⟩ =
      (⟨pcon, sz, some rd, rh, none, wh, cl⟩, Except.ok wr) ∧
    windowsPty.TakeWriter ⟨pcon, sz, some rd, rh, none, wh, cl⟩ =
      (⟨pcon, sz, some rd, rh, none, wh, cl⟩, Except.error GoError.alreadyTaken) ∧
    windowsPty.TakeWriter (windowsPty.TakeReader ⟨pcon, sz, some rd, rh, some wr, wh, cl⟩).1 =
      (⟨pcon, sz, none, rh, none, wh, cl⟩, Except.ok wr) ∧
    windowsPty.TakeReader (windowsPty.TakeWriter ⟨pcon, sz, some rd, rh, some wr, wh, cl⟩).1 =
      (⟨pcon, sz, none, rh, none, wh, cl⟩, Except.ok rd) := by
  refine ⟨rfl, rfl, rfl, rfl, rfl, rfl⟩

/-- C4: on a not-yet-closed pty, the first `Close` (with both OS releases
succeeding) returns nil having attempted each release exactly once — the
pseudoconsole, the read handle, the write handle — and sets the `closed` flag;
the second `Close` fails with `AlreadyClosed`, attempting no release at all. -/
theorem close_twice (pcon rh wh : Nat) (sz : PtySize)
    (rd : Option windowsReader) (wr : Option windowsWriter)
    (crr cwr : Option Nat) :
    windowsPty.Close none none ⟨pcon, sz, rd, rh, wr, wh, false⟩ =
      (⟨pcon, sz, rd, rh, wr, wh, true⟩, none,
        [.startDrain, .closePseudoConsole pcon, .closeHandle rh, .closeHandle wh]) ∧
    windowsPty.Close crr cwr ⟨pcon, sz, rd, rh, wr, wh, true⟩ =
      (⟨pcon, sz, rd, rh, wr, wh, true⟩, some GoError.alreadyClosed, []) := by
  refine ⟨rfl, rfl⟩

/-- C5, counterexample: the drain task also terminates on a read error that is
not end-of-stream — a single `ReadFile` failure with OS code 5 makes the
goroutine `return`, so "terminates exactly on end-of-stream" is false. -/
theorem drain_stops_on_error_without_eof :
    drainTask [ReadFileResult.osErr 5] = ([], some (DrainStop.errReturn 5)) ∧
    DrainStop.errReturn 5 ≠ DrainStop.eofBreak := by
  refine ⟨rfl, by decide⟩

/-- C5 (amended): `Close` on a not-yet-closed pty starts the drain task first
among its resource actions (and a second `Close` starts none); the drain task
breaks out of its loop on end-of-stream (`ERROR_BROKEN_PIPE` or
`ERROR_NO_DATA`, which `windowsReader.Read` turns into `io.EOF`), returns on
any other read error, and on every successful read writes back the
cursor-position report "\x1b[24;80R" if and only if the bytes read are exactly
the 4-byte sequence "\x1b[6n", then continues draining. -/
theorem drain_characterisation :
    (∀ pcon rh wh sz rd wr,
      (windowsPty.Close none none ⟨pcon, sz, rd, rh, wr, wh, false⟩).2.2.head? =
        some CloseEffect.startDrain) ∧
    (∀ crr cwr pcon rh wh sz rd wr,
      (windowsPty.Close crr cwr ⟨pcon, sz, rd, rh, wr, wh, true⟩).2.2 = []) ∧
    drainTask [] = ([], none) ∧
    (∀ tr, drainTask (ReadFileResult.brokenPipe :: tr) = ([], some DrainStop.eofBreak)) ∧
    (∀ tr, drainTask (ReadFileResult.noData :: tr) = ([], some DrainStop.eofBreak)) ∧
    (∀ e tr, drainTask (ReadFileResult.osErr e :: tr) = ([], some (DrainStop.errReturn e))) ∧
    (∀ bs tr, drainTask (ReadFileResult.ok bs :: tr) =
      if bs.length = 4 ∧ bs = cprQuery
      then (cprReply :: (drainTask tr).1, (drainTask tr).2)
      else drainTask tr) ∧
    (∀ bs tr, drainTask (ReadFileResult.moreData bs :: tr) =
      if bs.length = 4 ∧ bs = cprQuery
      then (cprReply :: (drainTask tr).1, (drainTask tr).2)
      else drainTask tr) := by
  refine ⟨fun _ _ _ _ _ _ => rfl, fun _ _ _ _ _ _ _ _ => rfl, rfl,
    fun _ => rfl, fun _ => rfl, fun _ _ => rfl, ?_, ?_⟩
  · intro bs tr
    show (let tail := drainTask tr;
      if bs.length = 4 ∧ bs = cprQuery then (cprReply :: tail.1, tail.2) else tail) = _
    split <;> rfl
  · intro bs tr
    show (let tail := drainTask tr;
      if bs.length = 4 ∧ bs = cprQuery then (cprReply :: tail.1, tail.2) else tail) = _
    split <;> rfl

/-- C6: the command line handed to `CreateProcess` is the naive space join of
`cmd.Path` and `cmd.Args[1:]` with no quoting, so an argument containing a
space ("a b") yields the line "prog a b", which parses back to three arguments
instead of the original two — the quoting the claim (and §9 of the spec)
requires is absent from the code. -/
theorem naive_join_does_not_quote :
    buildCmdStr ⟨"prog", ["prog", "a b"], [], ""⟩ = "prog a b" ∧
    specParseCmdLine (buildCmdStr ⟨"prog", ["prog", "a b"], [], ""⟩) =
      ["prog", "a", "b"] ∧
    ["prog", "a", "b"] ≠ ["prog", "a b"] := by
  refine ⟨by decide, by decide, by decide⟩

/-- C7: a successful `Resize` followed by `GetSize` returns the requested size
exactly, in all four fields, with `GetSize` making no OS call (it is a pure
projection of the stored size); a failed `Resize` leaves the pty — in
particular its stored size — unchanged, so `GetSize` still returns the last
successfully applied size. -/
theorem resize_then_getSize (p : windowsPty) (size : PtySize) (e : Nat) :
    (windowsPty.GetSize (windowsPty.Resize none size p).1).1 = size ∧
    (windowsPty.GetSize (windowsPty.Resize none size p).1).1.Rows = size.Rows ∧
    (windowsPty.GetSize (windowsPty.Resize none size p).1).1.Cols = size.Cols ∧
    (windowsPty.GetSize (windowsPty.Resize none size p).1).1.PixelWidth = size.PixelWidth ∧
    (windowsPty.GetSize (windowsPty.Resize none size p).1).1.PixelHeight = size.PixelHeight ∧
    (windowsPty.Resize none size p).2 = none ∧
    windowsPty.Resize (some e) size p = (p, some (GoError.osError e)) ∧
    (windowsPty.GetSize (windowsPty.Resize (some e) size p).1).1 = p.ptySize ∧
    windowsPty.GetSize p = (p.ptySize, none) := by
  refine ⟨rfl, rfl, rfl, rfl, rfl, rfl, rfl, rfl, rfl⟩

/-- C8: when the OS status query succeeds with status `s`, `Exited` returns
`NotFinished` (with the meaningless numeric result 0) exactly when `s` is the
still-active sentinel 259, and the real exit code `s` otherwise; and for every
oracle outcome whatsoever, `Exited` leaves the child's state unchanged, so
repeated polls are allowed. -/
theorem exited_poll_semantics (g : ExitCodeOracle) (c : windowsChild) (s : Nat)
    (h : g c.Proc = Except.ok s) :
    (s = stillActive → windowsChild.Exited g c = (c, 0, some GoError.notFinished)) ∧
    (s ≠ stillActive → windowsChild.Exited g c = (c, s, none)) ∧
    (∀ g2 : ExitCodeOracle, (windowsChild.Exited g2 c).1 = c) := by
  refine ⟨?_, ?_, ?_⟩
  · intro hs
    simp [windowsChild.Exited, h, hs]
  · intro hs
    simp [windowsChild.Exited, h, hs]
  · intro g2
    unfold windowsChild.Exited
    cases g2 c.Proc with
    | error e => rfl
    | ok status =>
        dsimp only
        split <;> rfl

/-- C8 witness: concrete poll of a child at handle 5 with the OS reporting the
still-active sentinel 259. -/
theorem exited_poll_semantics_witness :
    windowsChild.Exited (fun _ => Except.ok 259) ⟨5⟩ =
      (⟨5⟩, 0, some GoError.notFinished) :=
  (exited_poll_semantics (fun _ => Except.ok 259) ⟨5⟩ 259 rfl).1 rfl

/-- C9: whenever `SpawnCommand` fails at one of the stages the claim enumerates
— argument/environment/working-directory encoding, attribute-list setup, or the
create-process call — it returns an error (so no `Child` handle is produced),
no process was ever created (so none is left running), the receiver pty is
returned unchanged, and the attribute list, if it was allocated, was released
by the deferred delete. -/
theorem spawnCommand_fails_cleanly (o : SpawnOracle) (cmd : Cmd)
    (p : windowsPty) (h : spawnFailsAtEnumeratedStage o cmd) :
    (∃ e, (windowsPty.SpawnCommand o cmd p).result =
      Except.error (GoError.osError e)) ∧
    (windowsPty.SpawnCommand o cmd p).processCreated = false ∧
    (windowsPty.SpawnCommand o cmd p).pty = p ∧
    ((windowsPty.SpawnCommand o cmd p).attrListAllocated = true →
      (windowsPty.SpawnCommand o cmd p).attrListReleased = true) := by
  obtain ⟨r1, r2, r3, r4, r5, r6, r7, r8, ph⟩ := o
  simp only [spawnFailsAtEnumeratedStage] at h
  by_cases hd : cmd.Dir = "" <;>
    cases r1 <;> cases r2 <;> cases r3 <;> cases r4 <;> cases r5 <;>
    cases r6 <;> cases r7 <;>
    simp_all [windowsPty.SpawnCommand]

/-- C9 witness: a concrete run in which `CreateProcess` itself fails (error
code 5) on a fresh pty. -/
theorem spawnCommand_fails_cleanly_witness :
    (windowsPty.SpawnCommand ⟨none, none, none, none, none, none, some 5, none, 11⟩
      ⟨"prog", ["prog"], [], ""⟩
      ⟨1, DefaultPtySize, some ⟨2⟩, 2, some ⟨3⟩, 3, false⟩).processCreated = false :=
  (spawnCommand_fails_cleanly
    ⟨none, none, none, none, none, none, some 5, none, 11⟩
    ⟨"prog", ["prog"], [], ""⟩
    ⟨1, DefaultPtySize, some ⟨2⟩, 2, some ⟨3⟩, 3, false⟩ (by decide)).2.1

/-- C10: on a valid (not yet invalidated) child, once `WaitForSingleObject`
succeeds the handle is set to `InvalidHandle` unconditionally — also when the
subsequent exit-status query fails with an OS error or reports the still-active
sentinel 259, in which cases `Wait` returns that error and every later `Wait`
on this child fails with `AlreadyClosed`, making the exit code permanently
unobservable through it; whereas when `WaitForSingleObject` itself fails,
`Wait` returns its error with the child unchanged, so a later `Wait` may be
attempted. -/
theorem wait_invalidation_policy (c : windowsChild) (g : ExitCodeOracle)
    (e : Nat) (hc : c.Proc ≠ invalidHandle) :
    ((windowsChild.Wait none g c).1 = ⟨invalidHandle⟩) ∧
    (g c.Proc = Except.error e →
      windowsChild.Wait none g c = (⟨invalidHandle⟩, 0, some (GoError.osError e))) ∧
    (g c.Proc = Except.ok stillActive →
      windowsChild.Wait none g c = (⟨invalidHandle⟩, 0, some GoError.notFinished)) ∧
    (∀ w2 g2, (windowsChild.Wait w2 g2 (windowsChild.Wait none g c).1).2 =
      (0, some GoError.alreadyClosed)) ∧
    (∀ e2, windowsChild.Wait (some e2) g c = (c, 0, some (GoError.osError e2))) := by
  have h1 : (windowsChild.Wait none g c).1 = ⟨invalidHandle⟩ := by
    simp [windowsChild.Wait, hc]
  refine ⟨h1, ?_, ?_, ?_, ?_⟩
  · intro hg
    simp [windowsChild.Wait, windowsChild.Exited, hc, hg]
  · intro hg
    simp [windowsChild.Wait, windowsChild.Exited, hc, hg]
  · intro w2 g2
    rw [h1]
    simp [windowsChild.Wait]
  · intro e2
    simp [windowsChild.Wait, hc]

/-- C10 witness: concrete run at handle 42 where the OS-level wait succeeds but
the exit-status query fails with error code 3; the child is invalidated. -/
theorem wait_invalidation_policy_witness :
    (windowsChild.Wait none (fun _ => Except.error 3) ⟨42⟩).1 = ⟨invalidHandle⟩ :=
  (wait_invalidation_policy ⟨42⟩ (fun _ => Except.error 3) 3 (by decide)).1
